import Mathlib

/-!
Shallow embedding of the `HealthMonitor` class of
`src/payments/fnb_eft/FNBEFTService.js` (a self-healing host/application
monitor), together with theorems settling the frozen claims about it.

Conventions of the embedding:
* JS millisecond timestamps (`Date.now()`, ISO strings round-tripped through
  `new Date(s).getTime()`) are modelled as `Int` milliseconds.
* JS numbers used for usage percentages and response times are modelled as `ℚ`.
* The in-memory shared state (`this.metrics`, `this.alerts`,
  `this.recoveryActions`) is a `MonitorState` record threaded explicitly.
* Alert ids in the source are random strings (`alert_${Date.now()}_...`); no
  claim under verification concerns the id, so the embedding uses the current
  alert-list length as the id.
-/

namespace HealthMonitor

/-- Alert severity, the three values produced by `getAlertSeverity`. -/
inductive Severity where
  | info
  | warning
  | critical
deriving DecidableEq, Repr

/-- Alert type. The eight string constants used by the source, plus `other`
for any string not in the static severity map (the map defaults to info). -/
inductive AlertType where
  | HIGH_CPU
  | HIGH_MEMORY
  | HIGH_DISK
  | SERVICE_DOWN
  | SERVICE_RESTART_FAILED
  | ENDPOINT_DOWN
  | ENDPOINT_ERROR
  | HIGH_RESPONSE_TIME
  | other (name : String)
deriving DecidableEq, Repr

/-- An alert object as built by `triggerAlert` (lines 696-715): id, type,
severity, creation timestamp, acknowledged flag (payload `data` is opaque to
every claim and omitted). -/
structure Alert where
  id : Nat
  type : AlertType
  severity : Severity
  timestamp : Int
  acknowledged : Bool
deriving DecidableEq, Repr

/-- A recovery action kind, the four `action` strings pushed into
`this.recoveryActions`. -/
inductive RecoveryAction where
  | service_restart
  | memory_cleanup
  | disk_cleanup
  | application_restart
deriving DecidableEq, Repr

/-- A record pushed into `this.recoveryActions` after a remediation attempt. -/
structure RecoveryRecord where
  action : RecoveryAction
  service : Option String
  timestamp : Int
  success : Bool
deriving DecidableEq, Repr

/-- One entry of `this.metrics.cpu` / `.memory` / `.disk`: timestamp plus the
stored usage percentage. -/
structure MetricEntry where
  timestamp : Int
  usage : ℚ
deriving DecidableEq, Repr

/-- One entry of `this.metrics.responseTimes[name]`: timestamp, elapsed time,
HTTP status. -/
structure Response where
  timestamp : Int
  time : ℚ
  status : Nat
deriving DecidableEq, Repr

/-- The shared mutable state of the monitor: the metric stores, the endpoint
response histories, the alert log and the recovery-action log. -/
structure MonitorState where
  cpu : List MetricEntry
  memory : List MetricEntry
  disk : List MetricEntry
  responseTimes : List (String × List Response)
  alerts : List Alert
  recoveryActions : List RecoveryRecord
deriving DecidableEq, Repr

/-- The empty initial state built by the constructor (lines 281-292). -/
def MonitorState.initial : MonitorState :=
  { cpu := [], memory := [], disk := [], responseTimes := [],
    alerts := [], recoveryActions := [] }

/-- The alert thresholds of `this.config.alertThresholds` (lines 260-266). -/
structure Thresholds where
  cpu : ℚ
  memory : ℚ
  disk : ℚ
  responseTime : ℚ
deriving DecidableEq, Repr

/-- The configured default thresholds: cpu 80, memory 85, disk 90,
responseTime 5000 ms (lines 261-264). -/
def defaultThresholds : Thresholds :=
  { cpu := 80, memory := 85, disk := 90, responseTime := 5000 }

/-- Embedding of `getAlertSeverity(type)` (lines 717-730): a lookup in the
static `severityMap` object, defaulting to info for unlisted types. -/
def getAlertSeverity : AlertType → Severity
  | .HIGH_CPU => .warning
  | .HIGH_MEMORY => .warning
  | .HIGH_DISK => .critical
  | .SERVICE_DOWN => .critical
  | .SERVICE_RESTART_FAILED => .critical
  | .ENDPOINT_DOWN => .critical
  | .ENDPOINT_ERROR => .warning
  | .HIGH_RESPONSE_TIME => .warning
  | .other _ => .info

/-- Embedding of `triggerAlert(type, data)` (lines 696-715): build an alert
with severity `getAlertSeverity type`, `acknowledged: false`, the current
time, push it onto `this.alerts`. The notification call is fire-and-forget
and does not touch the state. -/
def triggerAlert (now : Int) (t : AlertType) (st : MonitorState) : MonitorState :=
  { st with alerts := st.alerts ++
      [{ id := st.alerts.length, type := t, severity := getAlertSeverity t,
         timestamp := now, acknowledged := false }] }

/-- The argument `analyzeMetrics` receives: one settled probe result of
`performSystemCheck` (lines 332-341). The five probes resolve objects of
different shapes; the only field `analyzeMetrics` reads is `.usage`, present
on the cpu, memory and disk results and absent (`undefined`) on the network
and process results. -/
structure ProbeValue where
  usage : Option ℚ
deriving DecidableEq, Repr

/-- JS truthiness of `metrics.usage` in the guards of `analyzeMetrics`:
`undefined` and `0` are falsy, every other number is truthy. -/
def usageTruthy : Option ℚ → Bool
  | none => false
  | some v => v != 0

/-- The alert types raised by one call of `analyzeMetrics(metrics)`
(lines 661-694), in source order. The source tests the single value
`metrics.usage` successively against `alertThresholds.cpu`,
`alertThresholds.memory` and `alertThresholds.disk`, raising `HIGH_CPU`,
`HIGH_MEMORY`, `HIGH_DISK` respectively; this is a projection onto the
alerts raised (the memory and disk branches additionally invoke
`cleanupMemory` / `cleanupDisk`, embedded separately below). -/
def analyzeMetricsAlerts (th : Thresholds) (m : ProbeValue) : List AlertType :=
  (if usageTruthy m.usage ∧ m.usage.getD 0 > th.cpu then [.HIGH_CPU] else []) ++
  (if usageTruthy m.usage ∧ m.usage.getD 0 > th.memory then [.HIGH_MEMORY] else []) ++
  (if usageTruthy m.usage ∧ m.usage.getD 0 > th.disk then [.HIGH_DISK] else [])

/-- Rounding of `parseFloat(x.toFixed(2))` as used when storing cpu and memory
usage: round to the nearest hundredth (ties away from zero modulo binary float
representation; no claim depends on the tie direction). -/
def roundTo2 (v : ℚ) : ℚ := (round (v * 100) : ℚ) / 100

/-- Aggregated cpu tick counters, the data `checkCPU` (lines 350-375) derives
from `os.cpus()`: per-core-averaged idle and total tick counts, core count. -/
structure CpuInput where
  idle : ℚ
  total : ℚ
  cores : Nat
deriving DecidableEq, Repr

/-- Embedding of `checkCPU` (lines 350-375): compute
`usage = ((total - idle) / total) * 100`, push a sample carrying the rounded
usage onto `this.metrics.cpu`, and resolve the raw (unrounded) usage. -/
def checkCPU (now : Int) (inp : CpuInput) (st : MonitorState) : MonitorState × ℚ :=
  let usage := ((inp.total - inp.idle) / inp.total) * 100
  ({ st with cpu := st.cpu ++ [{ timestamp := now, usage := roundTo2 usage }] }, usage)

/-- Embedding of `checkMemory` (lines 377-392): `usage = used / total * 100`
with `used = total - free`, push a sample with the rounded usage onto
`this.metrics.memory`, return the raw usage. -/
def checkMemory (now : Int) (total free : ℚ) (st : MonitorState) : MonitorState × ℚ :=
  let usage := ((total - free) / total) * 100
  ({ st with memory := st.memory ++ [{ timestamp := now, usage := roundTo2 usage }] }, usage)

/-- The successfully parsed `df -h /` output consumed by `checkDisk`
(lines 394-421): the integer usage percentage of the data row (the failure
paths reject without touching the store). -/
structure DiskInput where
  usage : Int
deriving DecidableEq, Repr

/-- Embedding of the success path of `checkDisk` (lines 394-421): push a
sample with the parsed usage onto `this.metrics.disk` and resolve it. -/
def checkDisk (now : Int) (inp : DiskInput) (st : MonitorState) : MonitorState × ℚ :=
  ({ st with disk := st.disk ++ [{ timestamp := now, usage := (inp.usage : ℚ) }] },
   (inp.usage : ℚ))

/-- One parsed `netstat -i` interface row as built by `checkNetwork`
(lines 434-450). -/
structure InterfaceRow where
  name : String
  rx_ok : Int
  rx_err : Int
  tx_ok : Int
  tx_err : Int
deriving DecidableEq, Repr

/-- Embedding of the success path of `checkNetwork` (lines 423-455): the
parsed interface rows are resolved to the caller and nothing is written to
any metric store (`this.metrics` has no network collection). -/
def checkNetwork (inp : List InterfaceRow) (st : MonitorState) :
    MonitorState × List InterfaceRow :=
  (st, inp)

/-- One parsed `ps aux` row as consumed by `checkProcesses` (lines 468-479):
only the command text matters to the filter. -/
structure ProcessRow where
  command : String
deriving DecidableEq, Repr

/-- Embedding of the success path of `checkProcesses` (lines 457-492): filter
the process rows whose command contains one of the four fixed markers, resolve
the total count and the app-relevant rows, and write nothing to any metric
store (`this.metrics` has no process collection). -/
def checkProcesses (inp : List ProcessRow) (st : MonitorState) :
    MonitorState × (Nat × List ProcessRow) :=
  (st,
   (inp.length,
    inp.filter (fun p =>
      p.command.containsSubstr "node" ||
      p.command.containsSubstr "nginx" ||
      p.command.containsSubstr "mongod" ||
      p.command.containsSubstr "redis")))

/-- Embedding of the per-service body of `checkServices` (lines 494-518),
projected onto its state effect plus a restart-invocation log: the probe
outcome `healthy` is the resolved value of `checkServiceCommand` /
`checkServicePort`; when it is false the source raises a `SERVICE_DOWN`
alert and invokes `restartService(service)` (logged here by service name;
the restart's own state effects are embedded separately in
`restartService`). There is no per-service state: the source keeps no
record of the previous probe outcome. -/
def checkServiceStep (now : Int) (acc : MonitorState × List String)
    (probe : String × Bool) : MonitorState × List String :=
  if probe.2 then acc
  else (triggerAlert now .SERVICE_DOWN acc.1, acc.2 ++ [probe.1])

/-- One cycle of `checkServices` (lines 494-518): fold `checkServiceStep`
over the configured services, each paired with this cycle's probe outcome. -/
def checkServicesCycle (now : Int) (probes : List (String × Bool))
    (acc : MonitorState × List String) : MonitorState × List String :=
  probes.foldl (checkServiceStep now) acc

/-- Several consecutive `checkServices` cycles, one probe-outcome list per
cycle, all at their respective times. -/
def checkServicesRun (cycles : List (Int × List (String × Bool)))
    (acc : MonitorState × List String) : MonitorState × List String :=
  cycles.foldl (fun a c => checkServicesCycle c.1 c.2 a) acc

/-- Embedding of `restartService(service)` (lines 553-596), split in phases.
Phase one, at time `now`: `executeCommand(service.restart)`; on success
(`cmdOk = true`) push a `service_restart` record with `success: true`; on
failure push one with `success: false` (and no verification is scheduled).
Phase two — only reached on command success — runs 10 seconds later at
`nowV`: re-probe the service; if the probe is still unhealthy, raise a
`SERVICE_RESTART_FAILED` alert; in either case no recovery record is pushed
or modified by this phase. -/
def restartServiceExec (now : Int) (name : String) (cmdOk : Bool)
    (st : MonitorState) : MonitorState :=
  { st with recoveryActions := st.recoveryActions ++
      [{ action := .service_restart, service := some name, timestamp := now,
         success := cmdOk }] }

/-- The delayed verification callback of `restartService` (lines 569-583):
re-probe; raise `SERVICE_RESTART_FAILED` when still unhealthy. -/
def restartServiceVerify (nowV : Int) (healthyAfter : Bool)
    (st : MonitorState) : MonitorState :=
  if healthyAfter then st else triggerAlert nowV .SERVICE_RESTART_FAILED st

/-- The whole of `restartService`: the exec phase, then — only when the
restart command succeeded — the verification phase. -/
def restartService (now nowV : Int) (name : String) (cmdOk healthyAfter : Bool)
    (st : MonitorState) : MonitorState :=
  if cmdOk then restartServiceVerify nowV healthyAfter (restartServiceExec now name true st)
  else restartServiceExec now name false st

/-- Sub-action environment for one `cleanupDisk` invocation (lines 822-872):
whether each of the four best-effort `exec` sub-actions (log deletion, temp
file deletion, backup deletion, npm cache clean) eventually reports success,
and whether the two guarded directories exist. -/
structure DiskEnv where
  logDirExists : Bool
  logsFindOk : Bool
  tempFindOk : Bool
  backupDirExists : Bool
  backupsFindOk : Bool
  npmCleanOk : Bool
deriving DecidableEq, Repr

/-- The labels which the four `exec` callbacks of `cleanupDisk` push into
`cleanupActions` once they eventually run (lines 831-853): one label per
succeeding sub-action, guarded by directory existence for logs and backups. -/
def diskCallbackLabels (env : DiskEnv) : List String :=
  (if env.logDirExists && env.logsFindOk then ["logs_cleaned"] else []) ++
  (if env.tempFindOk then ["temp_files_cleaned"] else []) ++
  (if env.backupDirExists && env.backupsFindOk then ["old_backups_cleaned"] else []) ++
  (if env.npmCleanOk then ["npm_cache_cleaned"] else [])

/-- The contents of `cleanupActions` at the moment `cleanupDisk` pushes its
recovery record (line 855). Node.js event-loop semantics: an `exec` callback
runs only after the currently executing synchronous code has completed, so
none of the four callbacks of lines 831-853 has run yet when line 855
executes, whatever the sub-actions' eventual outcomes: the array is empty. -/
def cleanupActionsAtPush (_env : DiskEnv) : List String := []

/-- Embedding of `cleanupDisk` (lines 822-872): push one `disk_cleanup`
record whose `success` field is `cleanupActions.length > 0` evaluated over
the `cleanupActions` array as it stands at push time. -/
def cleanupDisk (env : DiskEnv) (now : Int) (st : MonitorState) : MonitorState :=
  { st with recoveryActions := st.recoveryActions ++
      [{ action := .disk_cleanup, service := none, timestamp := now,
         success := (cleanupActionsAtPush env).length > 0 }] }

/-- Embedding of `cleanupMemory` (lines 785-820): the try block (gc hint,
cache-directory clear via an asynchronous `exec`) pushes a `memory_cleanup`
record with `success: true`; a synchronous throw (`memThrows`) takes the
catch path, pushing `success: false`. -/
def cleanupMemory (memThrows : Bool) (now : Int) (st : MonitorState) : MonitorState :=
  { st with recoveryActions := st.recoveryActions ++
      [{ action := .memory_cleanup, service := none, timestamp := now,
         success := !memThrows }] }

/-- Embedding of `restartApplication` (lines 874-905): `pm2 stop all`, a 5 s
grace wait, `pm2 start all`; a `application_restart` record with
`success: true` when both commands succeed, `success: false` via the catch
path when either throws. -/
def restartApplication (stopOk startOk : Bool) (now : Int) (st : MonitorState) :
    MonitorState :=
  { st with recoveryActions := st.recoveryActions ++
      [{ action := .application_restart, service := none, timestamp := now,
         success := stopOk && startOk }] }

/-- Environment of remediation outcomes for one proactive recovery sweep. -/
structure RecoveryEnv where
  disk : DiskEnv
  memThrows : Bool
  pm2StopOk : Bool
  pm2StartOk : Bool
deriving DecidableEq, Repr

/-- The selection predicate of `attemptAutoRecovery` (lines 755-759):
severity critical, not acknowledged, strictly older than 5 minutes
(300000 ms). -/
def recoverySelect (now : Int) (a : Alert) : Bool :=
  a.severity == .critical && !a.acknowledged && decide (now - a.timestamp > 300000)

/-- The dispatch switch of `attemptAutoRecovery` (lines 762-778):
`HIGH_DISK` runs `cleanupDisk`, `HIGH_MEMORY` runs `cleanupMemory`,
`ENDPOINT_DOWN` runs `restartApplication`, `SERVICE_DOWN` is an explicit
no-op, every other type falls through the switch. -/
def dispatchRecovery (env : RecoveryEnv) (now : Int) (st : MonitorState)
    (t : AlertType) : MonitorState :=
  match t with
  | .HIGH_DISK => cleanupDisk env.disk now st
  | .HIGH_MEMORY => cleanupMemory env.memThrows now st
  | .ENDPOINT_DOWN => restartApplication env.pm2StopOk env.pm2StartOk now st
  | _ => st

/-- Embedding of `attemptAutoRecovery` (lines 753-783): filter the alert log
by `recoverySelect`, dispatch the mapped remediation for each selected alert
in order, and set `acknowledged` on each selected alert. The source acks each
alert right after its own dispatch; since no dispatched remediation reads or
writes `this.alerts`, dispatching all selected alerts first and then acking
them (as below) reaches the same state. -/
def attemptAutoRecovery (env : RecoveryEnv) (now : Int) (st : MonitorState) :
    MonitorState :=
  let sel := st.alerts.filter (recoverySelect now)
  let st1 := sel.foldl (fun s a => dispatchRecovery env now s a.type) st
  { st1 with alerts := st1.alerts.map (fun a =>
      if recoverySelect now a then { a with acknowledged := true } else a) }

/-- Embedding of `cleanupOldMetrics` (lines 919-938): keep cpu, memory and
disk samples with `timestamp > now - 3600000`, alerts with
`timestamp > now - 86400000`, recovery records with
`timestamp > now - 604800000`; the endpoint response histories are not
touched. -/
def cleanupOldMetrics (now : Int) (st : MonitorState) : MonitorState :=
  { st with
    cpu := st.cpu.filter (fun m => m.timestamp > now - 3600000),
    memory := st.memory.filter (fun m => m.timestamp > now - 3600000),
    disk := st.disk.filter (fun m => m.timestamp > now - 3600000),
    alerts := st.alerts.filter (fun a => a.timestamp > now - 86400000),
    recoveryActions :=
      st.recoveryActions.filter (fun r => r.timestamp > now - 604800000) }

/-- The per-endpoint body of the availability loop of `getHealthReport`
(lines 1021-1027): filter the endpoint's responses to the trailing hour; when
any remain, yield `successful / total * 100` with `successful` counting
status < 400; otherwise yield nothing. -/
def availabilityOf (now : Int) (responses : List Response) : Option ℚ :=
  let recent := responses.filter (fun r => r.timestamp > now - 3600000)
  if recent.length > 0 then
    some ((((recent.filter (fun r => r.status < 400)).length : ℚ) / recent.length) * 100)
  else none

/-- The `endpoints` field of the health report (lines 1019-1027, 1049): one
availability entry per endpoint with at least one response in the trailing
hour, endpoints without recent responses omitted. -/
def endpointAvailability (now : Int)
    (responseTimes : List (String × List Response)) : List (String × ℚ) :=
  responseTimes.filterMap (fun e =>
    (availabilityOf now e.2).map (fun q => (e.1, q)))

/-- A `DiskEnv` in which every one of the four sub-actions of `cleanupDisk`
succeeds. -/
def allDiskOk : DiskEnv :=
  { logDirExists := true, logsFindOk := true, tempFindOk := true,
    backupDirExists := true, backupsFindOk := true, npmCleanOk := true }

/-- Claim C1: for every sampled metric value v evaluated against the
thresholds {cpu: 80, memory: 85, disk: 90}, v above the evaluated metric's
threshold creates exactly one alert of the type mapped for that metric and
v at or below it creates none; in particular a CPU sample never produces a
HIGH_MEMORY or HIGH_DISK alert and a memory sample of 60 produces no alert.
The code violates this: `analyzeMetrics` tests the one `metrics.usage` value
of whichever probe produced it against all three thresholds in turn, so the
CPU sample 92 raises HIGH_CPU, HIGH_MEMORY and HIGH_DISK (three alerts, two
of them of types the claim says a CPU sample can never produce), and a disk
sample 95 likewise raises all three. The memory-60 part does hold. -/
theorem claim_C1_code_eval :
    analyzeMetricsAlerts defaultThresholds { usage := some 92 } =
      [.HIGH_CPU, .HIGH_MEMORY, .HIGH_DISK] ∧
    analyzeMetricsAlerts defaultThresholds { usage := some 60 } = [] ∧
    analyzeMetricsAlerts defaultThresholds { usage := some 95 } =
      [.HIGH_CPU, .HIGH_MEMORY, .HIGH_DISK] ∧
    analyzeMetricsAlerts defaultThresholds { usage := none } = [] := by
  refine ⟨?_, ?_, ?_, rfl⟩ <;> decide

/-- Claim C3: the claim says the single `disk_cleanup` record appended by
`cleanupDisk` has `success = true` iff at least one of the four sub-actions
succeeded. The code computes `success: cleanupActions.length > 0`
synchronously, but the labels are pushed into `cleanupActions` only inside
the asynchronous `exec` callbacks, which cannot have run yet; the record is
therefore always appended with `success = false`, even when all four
sub-actions succeed (second conjunct: under `allDiskOk` all four labels are
eventually produced). The exactly-one-record part of the claim holds. -/
theorem claim_C3_code_eval :
    (∀ (env : DiskEnv) (now : Int) (st : MonitorState),
        (cleanupDisk env now st).recoveryActions = st.recoveryActions ++
          [{ action := .disk_cleanup, service := none, timestamp := now,
             success := false }]) ∧
    diskCallbackLabels allDiskOk =
      ["logs_cleaned", "temp_files_cleaned", "old_backups_cleaned",
       "npm_cache_cleaned"] :=
  ⟨fun _ _ _ => rfl, rfl⟩

/-- Claim C7: every alert created stores the severity of the static map at
its type — HIGH_CPU, HIGH_MEMORY, ENDPOINT_ERROR, HIGH_RESPONSE_TIME map to
warning; HIGH_DISK, SERVICE_DOWN, SERVICE_RESTART_FAILED, ENDPOINT_DOWN map
to critical; any unlisted type maps to info — and `getAlertSeverity` is a
pure function, so repeated lookups of the same type agree. Confirmed. -/
theorem claim_C7_severity_static_map :
    (∀ (now : Int) (t : AlertType) (st : MonitorState),
        (triggerAlert now t st).alerts = st.alerts ++
          [{ id := st.alerts.length, type := t, severity := getAlertSeverity t,
             timestamp := now, acknowledged := false }]) ∧
    getAlertSeverity .HIGH_CPU = .warning ∧
    getAlertSeverity .HIGH_MEMORY = .warning ∧
    getAlertSeverity .ENDPOINT_ERROR = .warning ∧
    getAlertSeverity .HIGH_RESPONSE_TIME = .warning ∧
    getAlertSeverity .HIGH_DISK = .critical ∧
    getAlertSeverity .SERVICE_DOWN = .critical ∧
    getAlertSeverity .SERVICE_RESTART_FAILED = .critical ∧
    getAlertSeverity .ENDPOINT_DOWN = .critical ∧
    (∀ s : String, getAlertSeverity (.other s) = .info) :=
  ⟨fun _ _ _ => rfl, rfl, rfl, rfl, rfl, rfl, rfl, rfl, rfl, fun _ => rfl⟩

/-- The fields of an alert that `checkServices` determines (the id depends
on the running alert count and is projected away). -/
def alertCore (a : Alert) : AlertType × Severity × Int × Bool :=
  (a.type, a.severity, a.timestamp, a.acknowledged)

/-- One `checkServices` cycle appends one critical `SERVICE_DOWN` alert and
one restart invocation per service whose probe reports unhealthy this cycle,
whatever the starting state — the source keeps no record of previous probe
outcomes. -/
theorem checkServicesCycle_effect (now : Int) (probes : List (String × Bool))
    (st : MonitorState) (log : List String) :
    ((checkServicesCycle now probes (st, log)).1.alerts.map alertCore =
      st.alerts.map alertCore ++
        (probes.filter (fun p => !p.2)).map
          (fun _ => (AlertType.SERVICE_DOWN, Severity.critical, now, false))) ∧
    (checkServicesCycle now probes (st, log)).2 =
      log ++ (probes.filter (fun p => !p.2)).map Prod.fst := by
  induction probes generalizing st log with
  | nil => simp [checkServicesCycle]
  | cons p ps ih =>
    cases hp : p.2 with
    | true =>
      have h :=
        ih st log
      simpa [checkServicesCycle, checkServiceStep, hp, List.foldl_cons] using h
    | false =>
      have h := ih (triggerAlert now .SERVICE_DOWN st) (log ++ [p.1])
      constructor
      · have h1 := h.1
        simp only [checkServicesCycle, List.foldl_cons, checkServiceStep, hp,
          Bool.false_eq_true, if_false] at h1 ⊢
        rw [h1, triggerAlert]
        simp [alertCore, List.filter_cons, hp, getAlertSeverity]
      · have h2 := h.2
        simp only [checkServicesCycle, List.foldl_cons, checkServiceStep, hp,
          Bool.false_eq_true, if_false] at h2 ⊢
        rw [h2]
        simp [List.filter_cons, hp]

/-- Claim C2 counterexample: the claim says service health checking is
edge-triggered — no `SERVICE_DOWN` alert and no restart on a cycle in which
an already-Unhealthy service probes Unhealthy again. Run two consecutive
`checkServices` cycles in which the same service probes unhealthy: the code
raises two `SERVICE_DOWN` alerts and invokes the restart twice (the claim
predicts one of each, on the first cycle only). -/
theorem claim_C2_counterexample :
    ((checkServicesRun [(0, [("redis", false)]), (30000, [("redis", false)])]
        (MonitorState.initial, [])).1.alerts.map Alert.type =
      [.SERVICE_DOWN, .SERVICE_DOWN]) ∧
    (checkServicesRun [(0, [("redis", false)]), (30000, [("redis", false)])]
        (MonitorState.initial, [])).2 = ["redis", "redis"] :=
  ⟨rfl, rfl⟩

/-- Claim C2 as amended: service health checking is level-triggered, not
edge-triggered — within a cycle, exactly one critical `SERVICE_DOWN` alert
is raised and one restart invoked per service whose probe reports Unhealthy
in that cycle, regardless of what any earlier cycle observed (the code keeps
no per-service Healthy/Unhealthy state), and nothing is raised for a service
probing Healthy. -/
theorem claim_C2_level_triggered (now : Int) (probes : List (String × Bool))
    (st : MonitorState) (log : List String) :
    ((checkServicesCycle now probes (st, log)).1.alerts.map alertCore =
      st.alerts.map alertCore ++
        (probes.filter (fun p => !p.2)).map
          (fun _ => (AlertType.SERVICE_DOWN, Severity.critical, now, false))) ∧
    (checkServicesCycle now probes (st, log)).2 =
      log ++ (probes.filter (fun p => !p.2)).map Prod.fst :=
  checkServicesCycle_effect now probes st log

/-- Claim C4 counterexample: the claim says every metric sampling operation,
including network and process-table sampling, appends a MetricSample for its
category to the store. `checkNetwork` and `checkProcesses` return the state
they were given unchanged — they append nothing (the store has no network or
process collection at all). -/
theorem claim_C4_counterexample :
    (checkNetwork
        [{ name := "eth0", rx_ok := 10, rx_err := 0, tx_ok := 8, tx_err := 0 }]
        MonitorState.initial).1 = MonitorState.initial ∧
    (checkProcesses [{ command := "node server.js" }, { command := "bash" }]
        MonitorState.initial).1 = MonitorState.initial :=
  ⟨rfl, rfl⟩

/-- Claim C4 as amended: the CPU, memory and disk sampling operations each
append exactly one sample for their category and return the raw (unrounded)
sampled value to the caller; the network and process-table sampling
operations return their raw sampled value to the caller but append nothing
to the store. -/
theorem claim_C4_store_and_return (now : Int) (st : MonitorState)
    (ci : CpuInput) (total free : ℚ) (di : DiskInput)
    (ni : List InterfaceRow) (pr : List ProcessRow) :
    (checkCPU now ci st).1 = { st with cpu := st.cpu ++
        [{ timestamp := now,
           usage := roundTo2 (((ci.total - ci.idle) / ci.total) * 100) }] } ∧
    (checkCPU now ci st).2 = ((ci.total - ci.idle) / ci.total) * 100 ∧
    (checkMemory now total free st).1 = { st with memory := st.memory ++
        [{ timestamp := now, usage := roundTo2 (((total - free) / total) * 100) }] } ∧
    (checkMemory now total free st).2 = ((total - free) / total) * 100 ∧
    (checkDisk now di st).1 = { st with disk := st.disk ++
        [{ timestamp := now, usage := (di.usage : ℚ) }] } ∧
    (checkDisk now di st).2 = (di.usage : ℚ) ∧
    checkNetwork ni st = (st, ni) ∧
    (checkProcesses pr st).1 = st :=
  ⟨rfl, rfl, rfl, rfl, rfl, rfl, rfl, rfl⟩

/-- No dispatched remediation reads or writes the alert log. -/
theorem dispatchRecovery_alerts (env : RecoveryEnv) (now : Int)
    (s : MonitorState) (t : AlertType) :
    (dispatchRecovery env now s t).alerts = s.alerts := by
  cases t <;> rfl

/-- Folding the dispatch over any alert list leaves the alert log intact. -/
theorem foldDispatch_alerts (env : RecoveryEnv) (now : Int) :
    ∀ (l : List Alert) (s : MonitorState),
      ((l.foldl (fun s a => dispatchRecovery env now s a.type) s)).alerts = s.alerts := by
  intro l
  induction l with
  | nil => intro s; rfl
  | cons a l ih =>
    intro s
    rw [List.foldl_cons, ih, dispatchRecovery_alerts]

/-- The selection predicate of the proactive sweep, spelled out: severity
critical, not yet acknowledged, and strictly more than 300000 ms old. -/
theorem recoverySelect_eq_true_iff (now : Int) (a : Alert) :
    recoverySelect now a = true ↔
      (a.severity = .critical ∧ a.acknowledged = false ∧ now - a.timestamp > 300000) := by
  simp [recoverySelect, Bool.and_eq_true, Bool.not_eq_true', and_assoc]

/-- The alert log after a proactive sweep: each alert satisfying the
selection predicate is acknowledged, every other alert is untouched. -/
theorem attemptAutoRecovery_alerts (env : RecoveryEnv) (now : Int)
    (st : MonitorState) :
    (attemptAutoRecovery env now st).alerts = st.alerts.map (fun a =>
      if recoverySelect now a then { a with acknowledged := true } else a) := by
  exact congrArg
    (List.map fun a =>
      if recoverySelect now a then { a with acknowledged := true } else a)
    (foldDispatch_alerts env now (st.alerts.filter (recoverySelect now)) st)

/-- Claim C5: the proactive recovery sweep selects exactly the alerts with
severity critical, acknowledged false and age strictly over 5 minutes
(300000 ms), and every selected alert ends the sweep acknowledged while
every non-selected alert is untouched, for every remediation-outcome
environment `env` — i.e. regardless of whether the dispatched remediation
succeeded, and also for selected alert types with no mapped remediation
(the switch falls through and the alert is still acknowledged). Confirmed. -/
theorem claim_C5_select_and_ack (env : RecoveryEnv) (now : Int)
    (st : MonitorState) (i : Nat) (hi : i < st.alerts.length) :
    (attemptAutoRecovery env now st).alerts.length = st.alerts.length ∧
    ∀ hi' : i < (attemptAutoRecovery env now st).alerts.length,
      (((st.alerts.get ⟨i, hi⟩).severity = .critical ∧
          (st.alerts.get ⟨i, hi⟩).acknowledged = false ∧
          now - (st.alerts.get ⟨i, hi⟩).timestamp > 300000) →
        (attemptAutoRecovery env now st).alerts.get ⟨i, hi'⟩ =
          { st.alerts.get ⟨i, hi⟩ with acknowledged := true }) ∧
      (¬ ((st.alerts.get ⟨i, hi⟩).severity = .critical ∧
          (st.alerts.get ⟨i, hi⟩).acknowledged = false ∧
          now - (st.alerts.get ⟨i, hi⟩).timestamp > 300000) →
        (attemptAutoRecovery env now st).alerts.get ⟨i, hi'⟩ =
          st.alerts.get ⟨i, hi⟩) := by
  have hlen : (attemptAutoRecovery env now st).alerts.length = st.alerts.length := by
    rw [attemptAutoRecovery_alerts, List.length_map]
  refine ⟨hlen, fun hi' => ⟨fun hsel => ?_, fun hnot => ?_⟩⟩
  · have hmap := List.get_of_eq (attemptAutoRecovery_alerts env now st) ⟨i, hi'⟩
    rw [hmap, List.get_map]
    rw [if_pos ((recoverySelect_eq_true_iff now _).mpr hsel)]
  · have hmap := List.get_of_eq (attemptAutoRecovery_alerts env now st) ⟨i, hi'⟩
    rw [hmap, List.get_map]
    rw [if_neg (fun hb => hnot ((recoverySelect_eq_true_iff now _).mp hb))]

/-- A remediation-outcome environment in which every sub-action succeeds. -/
def recEnvOk : RecoveryEnv :=
  { disk := allDiskOk, memThrows := false, pm2StopOk := true, pm2StartOk := true }

/-- A state holding one critical, unacknowledged `SERVICE_RESTART_FAILED`
alert — a type the dispatch switch of `attemptAutoRecovery` has no case
for — created at time 0. -/
def restartFailedState : MonitorState :=
  { MonitorState.initial with alerts :=
      [{ id := 0, type := .SERVICE_RESTART_FAILED, severity := .critical,
         timestamp := 0, acknowledged := false }] }

/-- Witness for claim C5: at time 400000 the 0-aged-at-0 critical
unacknowledged `SERVICE_RESTART_FAILED` alert (age 400000 ms > 300000 ms) is
selected and acknowledged even though no remediation is mapped for its
type. -/
theorem claim_C5_witness :
    (attemptAutoRecovery recEnvOk 400000 restartFailedState).alerts.get
        ⟨0, by decide⟩ =
      { id := 0, type := .SERVICE_RESTART_FAILED, severity := .critical,
        timestamp := 0, acknowledged := true } :=
  ((claim_C5_select_and_ack recEnvOk 400000 restartFailedState 0
      (by decide)).2 (by decide)).1 (by decide)

/-- Count of the recovery records of a given action kind. -/
def countRecs (k : RecoveryAction) (l : List RecoveryRecord) : Nat :=
  (l.filter (fun r => r.action == k)).length

/-- The records one dispatch of `attemptAutoRecovery` appends for an alert
of the given type (lines 762-778): one `disk_cleanup` for `HIGH_DISK`, one
`memory_cleanup` for `HIGH_MEMORY`, one `application_restart` for
`ENDPOINT_DOWN`, none otherwise. -/
def dispatchRecords (env : RecoveryEnv) (now : Int) : AlertType → List RecoveryRecord
  | .HIGH_DISK =>
      [{ action := .disk_cleanup, service := none, timestamp := now,
         success := (cleanupActionsAtPush env.disk).length > 0 }]
  | .HIGH_MEMORY =>
      [{ action := .memory_cleanup, service := none, timestamp := now,
         success := !env.memThrows }]
  | .ENDPOINT_DOWN =>
      [{ action := .application_restart, service := none, timestamp := now,
         success := env.pm2StopOk && env.pm2StartOk }]
  | _ => []

/-- Whether the given recovery action is the remediation the dispatch switch
maps to the given alert type. -/
def remTypeMatches : RecoveryAction → AlertType → Bool
  | .disk_cleanup, .HIGH_DISK => true
  | .memory_cleanup, .HIGH_MEMORY => true
  | .application_restart, .ENDPOINT_DOWN => true
  | _, _ => false

/-- One dispatch appends exactly its mapped records to the recovery log. -/
theorem dispatchRecovery_records (env : RecoveryEnv) (now : Int)
    (s : MonitorState) (t : AlertType) :
    (dispatchRecovery env now s t).recoveryActions =
      s.recoveryActions ++ dispatchRecords env now t := by
  cases t <;>
    simp [dispatchRecovery, dispatchRecords, cleanupDisk, cleanupMemory,
      restartApplication]

/-- Counting the mapped records of one dispatch. -/
theorem countRecs_dispatchRecords (env : RecoveryEnv) (now : Int)
    (k : RecoveryAction) (t : AlertType) :
    countRecs k (dispatchRecords env now t) =
      if remTypeMatches k t then 1 else 0 := by
  cases k <;> cases t <;> rfl

/-- Counting records distributes over append. -/
theorem countRecs_append (k : RecoveryAction) (l₁ l₂ : List RecoveryRecord) :
    countRecs k (l₁ ++ l₂) = countRecs k l₁ + countRecs k l₂ := by
  simp [countRecs, List.filter_append]

/-- Folding the dispatch over an alert list appends one mapped record per
alert whose type has a mapped remediation. -/
theorem countRecs_foldDispatch (env : RecoveryEnv) (now : Int) (k : RecoveryAction) :
    ∀ (l : List Alert) (s : MonitorState),
      countRecs k ((l.foldl (fun s a => dispatchRecovery env now s a.type) s)).recoveryActions =
        countRecs k s.recoveryActions +
          (l.filter (fun a => remTypeMatches k a.type)).length := by
  intro l
  induction l with
  | nil => intro s; simp
  | cons a l ih =>
    intro s
    rw [List.foldl_cons, ih, dispatchRecovery_records, countRecs_append,
      countRecs_dispatchRecords, List.filter_cons]
    cases h : remTypeMatches k a.type <;> simp [h] <;> omega

/-- A state holding two critical, unacknowledged `HIGH_DISK` alerts, both
created near time 0. -/
def twoDiskAlertsState : MonitorState :=
  { MonitorState.initial with alerts :=
      [{ id := 0, type := .HIGH_DISK, severity := .critical, timestamp := 0,
         acknowledged := false },
       { id := 1, type := .HIGH_DISK, severity := .critical, timestamp := 1000,
         acknowledged := false }] }

/-- Claim C6 counterexample: the claim says the remediation for a given
alert type is attempted at most once within one sweep even if several alerts
of that type qualify. With two qualifying `HIGH_DISK` alerts, the sweep at
time 400000 dispatches `cleanupDisk` once per alert and the recovery log
gains two `disk_cleanup` records, not at most one. -/
theorem claim_C6_counterexample :
    countRecs .disk_cleanup
      (attemptAutoRecovery recEnvOk 400000 twoDiskAlertsState).recoveryActions = 2 :=
  rfl

/-- Claim C6 as amended: within one sweep the remediation mapped for an
alert type is dispatched once per selected alert of that type — k qualifying
`HIGH_DISK` alerts produce exactly k `disk_cleanup` attempts, and likewise
for `HIGH_MEMORY` / `memory_cleanup` and `ENDPOINT_DOWN` /
`application_restart` — rather than at most once per type. -/
theorem claim_C6_once_per_selected_alert (env : RecoveryEnv) (now : Int)
    (st : MonitorState) :
    (countRecs .disk_cleanup (attemptAutoRecovery env now st).recoveryActions =
      countRecs .disk_cleanup st.recoveryActions +
        (st.alerts.filter
          (fun a => recoverySelect now a && a.type == .HIGH_DISK)).length) ∧
    (countRecs .memory_cleanup (attemptAutoRecovery env now st).recoveryActions =
      countRecs .memory_cleanup st.recoveryActions +
        (st.alerts.filter
          (fun a => recoverySelect now a && a.type == .HIGH_MEMORY)).length) ∧
    (countRecs .application_restart (attemptAutoRecovery env now st).recoveryActions =
      countRecs .application_restart st.recoveryActions +
        (st.alerts.filter
          (fun a => recoverySelect now a && a.type == .ENDPOINT_DOWN)).length) := by
  have hrec : (attemptAutoRecovery env now st).recoveryActions =
      ((st.alerts.filter (recoverySelect now)).foldl
        (fun s a => dispatchRecovery env now s a.type) st).recoveryActions := rfl
  refine ⟨?_, ?_, ?_⟩ <;>
    · rw [hrec, countRecs_foldDispatch, List.filter_filter]
      congr 2
      apply List.filter_congr
      intro a _
      cases a.type <;> simp [remTypeMatches]

/-- Number of an endpoint's recorded responses falling in the trailing
one-hour window. -/
def windowTotal (now : Int) (rs : List Response) : Nat :=
  (rs.filter (fun r => r.timestamp > now - 3600000)).length

/-- Number of an endpoint's recorded responses falling in the trailing
one-hour window and carrying a status below 400. -/
def windowSuccessful (now : Int) (rs : List Response) : Nat :=
  (rs.filter (fun r => decide (r.timestamp > now - 3600000 ∧ r.status < 400))).length

/-- With no response in the window, the availability entry is omitted. -/
theorem availabilityOf_eq_none (now : Int) (rs : List Response)
    (h : windowTotal now rs = 0) : availabilityOf now rs = none := by
  have h0 : (rs.filter (fun r => r.timestamp > now - 3600000)).length = 0 := h
  simp [availabilityOf, h0]

/-- With at least one response in the window, the availability entry is the
in-window success count over the in-window total, times 100. -/
theorem availabilityOf_eq_some (now : Int) (rs : List Response)
    (h : windowTotal now rs ≠ 0) :
    availabilityOf now rs =
      some (100 * (windowSuccessful now rs : ℚ) / (windowTotal now rs : ℚ)) := by
  have hlen : (rs.filter (fun r => r.timestamp > now - 3600000)).length > 0 :=
    Nat.pos_of_ne_zero h
  unfold availabilityOf
  rw [if_pos hlen]
  congr 1
  have hff : ((rs.filter (fun r => r.timestamp > now - 3600000)).filter
        (fun r => r.status < 400)).length = windowSuccessful now rs := by
    rw [List.filter_filter]
    unfold windowSuccessful
    congr 1
    apply List.filter_congr
    intro r _
    simp [Bool.decide_and, Bool.and_comm]
  rw [hff]
  unfold windowTotal
  ring

/-- Ten responses of the "Backend API" endpoint inside the trailing hour of
time 4000000: eight with status < 400 and two with status ≥ 400. -/
def sampleResponses : List Response :=
  [{ timestamp := 500000, time := 120, status := 200 },
   { timestamp := 600000, time := 110, status := 200 },
   { timestamp := 700000, time := 100, status := 201 },
   { timestamp := 800000, time := 95, status := 200 },
   { timestamp := 900000, time := 130, status := 204 },
   { timestamp := 1000000, time := 105, status := 200 },
   { timestamp := 1100000, time := 125, status := 302 },
   { timestamp := 1200000, time := 115, status := 200 },
   { timestamp := 1300000, time := 140, status := 500 },
   { timestamp := 1400000, time := 135, status := 503 }]

/-- Claim C8: `getHealthReport` computes, per endpoint with at least one
response in the trailing hour, availability = (number of responses with
status < 400) / (number of all responses in the window) × 100, omits
endpoints with no response in the window, and 8 successful plus 2 failing
responses give availability 80. Confirmed. -/
theorem claim_C8_availability (now : Int) (name : String) (rs : List Response) :
    (windowTotal now rs = 0 → endpointAvailability now [(name, rs)] = []) ∧
    (windowTotal now rs ≠ 0 →
      endpointAvailability now [(name, rs)] =
        [(name, 100 * (windowSuccessful now rs : ℚ) / (windowTotal now rs : ℚ))]) ∧
    endpointAvailability 4000000 [("Backend API", sampleResponses)] =
      [("Backend API", 80)] := by
  refine ⟨fun h0 => ?_, fun hpos => ?_, ?_⟩
  · simp [endpointAvailability, availabilityOf_eq_none now rs h0]
  · simp [endpointAvailability, availabilityOf_eq_some now rs hpos]
  · have h10 : windowTotal 4000000 sampleResponses = 10 := by decide
    have h8 : windowSuccessful 4000000 sampleResponses = 8 := by decide
    have hs := availabilityOf_eq_some 4000000 sampleResponses (by simp [h10])
    rw [h8, h10] at hs
    simp only [endpointAvailability, List.filterMap, hs, Option.map_some]
    norm_num

/-- Witness for claim C8: the omission branch at an endpoint with no
responses, and the formula branch at the ten concrete responses of
`sampleResponses`. -/
theorem claim_C8_witness :
    endpointAvailability 4000000 [("Frontend", ([] : List Response))] = [] ∧
    endpointAvailability 4000000 [("Backend API", sampleResponses)] =
      [("Backend API",
        100 * (windowSuccessful 4000000 sampleResponses : ℚ) /
          (windowTotal 4000000 sampleResponses : ℚ))] :=
  ⟨(claim_C8_availability 4000000 "Frontend" []).1 (by decide),
   (claim_C8_availability 4000000 "Backend API" sampleResponses).2.1 (by decide)⟩

/-- Claim C9 counterexample: the claim says the sweep removes exactly the
elements older than their window and retains every within-window element.
A cpu sample of age exactly one hour (timestamp 0, sweep at 3600000) is not
older than one hour, yet the sweep drops it: the code keeps only samples
with `timestamp > now - 3600000`, a strict comparison that also removes the
boundary element. -/
theorem claim_C9_counterexample :
    (cleanupOldMetrics 3600000
        { MonitorState.initial with
          cpu := [{ timestamp := 0, usage := 50 }] }).cpu = [] ∧
    ¬ ((3600000 : Int) - 0 > 3600000) :=
  ⟨rfl, by decide⟩

/-- Claim C9 as amended: a single sweep removes exactly the cpu/memory/disk
samples of age ≥ 1 hour, the alerts of age ≥ 24 hours and the recovery
records of age ≥ 7 days — the cutoff is inclusive, so an element aged
exactly its window is removed too — and retains every strictly younger
element unchanged and in its original order (each surviving collection is a
filter, hence a sublist, of the original); the endpoint response histories
are untouched. -/
theorem claim_C9_retention_sweep (now : Int) (st : MonitorState) :
    (cleanupOldMetrics now st).cpu =
      st.cpu.filter (fun m => now - m.timestamp < 3600000) ∧
    (cleanupOldMetrics now st).memory =
      st.memory.filter (fun m => now - m.timestamp < 3600000) ∧
    (cleanupOldMetrics now st).disk =
      st.disk.filter (fun m => now - m.timestamp < 3600000) ∧
    (cleanupOldMetrics now st).alerts =
      st.alerts.filter (fun a => now - a.timestamp < 86400000) ∧
    (cleanupOldMetrics now st).recoveryActions =
      st.recoveryActions.filter (fun r => now - r.timestamp < 604800000) ∧
    (cleanupOldMetrics now st).responseTimes = st.responseTimes ∧
    (cleanupOldMetrics now st).cpu.Sublist st.cpu ∧
    (cleanupOldMetrics now st).alerts.Sublist st.alerts ∧
    (cleanupOldMetrics now st).recoveryActions.Sublist st.recoveryActions := by
  refine ⟨?_, ?_, ?_, ?_, ?_, rfl, List.filter_sublist _, List.filter_sublist _,
    List.filter_sublist _⟩ <;>
    · apply List.filter_congr
      intro x _
      rw [decide_eq_decide]
      omega

/-- Claim C10: when the restart command of a reactive service restart
executes without error, exactly one `service_restart` record with
`success = true` is appended by the exec phase, before the verification
re-probe; the verification phase never appends or modifies a recovery
record, raises a critical `SERVICE_RESTART_FAILED` alert when the re-probe
is still unhealthy, and does nothing when it is healthy — so the record's
success field reflects command execution only, never verified health.
Confirmed. -/
theorem claim_C10_restart_record (now nowV : Int) (name : String)
    (healthyAfter : Bool) (st : MonitorState) :
    (restartServiceExec now name true st).recoveryActions =
      st.recoveryActions ++
        [{ action := .service_restart, service := some name, timestamp := now,
           success := true }] ∧
    (restartServiceExec now name true st).alerts = st.alerts ∧
    restartService now nowV name true healthyAfter st =
      restartServiceVerify nowV healthyAfter (restartServiceExec now name true st) ∧
    (restartServiceVerify nowV healthyAfter
        (restartServiceExec now name true st)).recoveryActions =
      (restartServiceExec now name true st).recoveryActions ∧
    (healthyAfter = false →
      (restartServiceVerify nowV healthyAfter
          (restartServiceExec now name true st)).alerts =
        (restartServiceExec now name true st).alerts ++
          [{ id := (restartServiceExec now name true st).alerts.length,
             type := .SERVICE_RESTART_FAILED, severity := .critical,
             timestamp := nowV, acknowledged := false }]) ∧
    (healthyAfter = true →
      restartServiceVerify nowV healthyAfter (restartServiceExec now name true st) =
        restartServiceExec now name true st) := by
  refine ⟨rfl, rfl, rfl, ?_, fun h => ?_, fun h => ?_⟩
  · cases healthyAfter <;> rfl
  · subst h; rfl
  · subst h; rfl

/-- Witness for claim C10: a restart of "nginx" at time 10000 whose command
succeeds and whose verification re-probe at time 20000 still reports
unhealthy — the recovery log is untouched by verification and the
escalation alert is appended. -/
theorem claim_C10_witness :
    (restartServiceVerify 20000 false
        (restartServiceExec 10000 "nginx" true MonitorState.initial)).alerts =
      (restartServiceExec 10000 "nginx" true MonitorState.initial).alerts ++
        [{ id := (restartServiceExec 10000 "nginx" true
              MonitorState.initial).alerts.length,
           type := .SERVICE_RESTART_FAILED, severity := .critical,
           timestamp := 20000, acknowledged := false }] ∧
    (restartServiceVerify 20000 false
        (restartServiceExec 10000 "nginx" true MonitorState.initial)).recoveryActions =
      (restartServiceExec 10000 "nginx" true MonitorState.initial).recoveryActions :=
  ⟨(claim_C10_restart_record 10000 20000 "nginx" false
      MonitorState.initial).2.2.2.2.1 rfl,
   (claim_C10_restart_record 10000 20000 "nginx" false
      MonitorState.initial).2.2.2.1⟩

end HealthMonitor
